import Mathlib

/-!
Shallow embedding of the United Cajun Navy deployment-map client:
`js/main.js` (search, filters, realtime reconciliation), `js/map.js`
(markers, popups, filter dimming), `js/storage.js` (pin store wrapper)
and `js/config.js` (status table, fixed configuration).

The client keeps an in-memory pin cache (`pinsCache`), a set of active
status filters (`activeFilters`), rendered markers on a Leaflet layer,
and at most one search-radius circle overlay.  Pure fragments of the
JavaScript are translated to Lean functions; the mutable module-level
state (`pinsCache`, `activeFilters`, `searchCircle`, the marker layer)
is passed explicitly.  Real-number coordinates model the JavaScript
floating-point values; string operations that the JavaScript delegates
to built-ins (trim, the digit regex) are modelled over `String.data`.
-/

namespace UCNMap

/-- Pin record as produced by the `pins` table and consumed by the client
(fields per `savePin` in `storage.js` and the usages in `map.js`).
The identifier is assigned by the remote store; `url` and the text
fields may be empty strings (the JavaScript treats an empty string as
absent via truthiness checks). -/
structure Pin where
  id : Nat
  title : String
  address : String
  summary : String
  status : String
  lat : ℝ
  lng : ℝ
  url : String
  url_text : String
  show_donate : Bool
  show_volunteer : Bool
  show_help : Bool
  created_at : String

/-- The five recognized status categories, in the order used by
`activeFilters` in `main.js` and the `counts` object in `updateCounts`. -/
def allStatuses : List String :=
  ["critical", "warning", "active", "past", "weather"]

/-- Per-status tallies kept by `updateCounts` in `main.js`. -/
structure Counts where
  critical : Nat
  warning : Nat
  active : Nat
  past : Nat
  weather : Nat
  deriving DecidableEq

/-- One step of `updateCounts`: `if (counts[pin.status] !== undefined)
counts[pin.status]++` — bump the tally when the status is one of the five
recognized categories, otherwise leave every tally unchanged. -/
def bumpCount (c : Counts) (s : String) : Counts :=
  if s = "critical" then { c with critical := c.critical + 1 }
  else if s = "warning" then { c with warning := c.warning + 1 }
  else if s = "active" then { c with active := c.active + 1 }
  else if s = "past" then { c with past := c.past + 1 }
  else if s = "weather" then { c with weather := c.weather + 1 }
  else c

/-- `updateCounts` in `main.js`: tally the full cache per status,
starting from all-zero counts. -/
def countsByStatus (pins : List Pin) : Counts :=
  pins.foldl (fun c p => bumpCount c p.status) ⟨0, 0, 0, 0, 0⟩

/-- Number of cached records carrying identifier `i`. -/
def countWithId (cache : List Pin) (i : Nat) : Nat :=
  (cache.filter (fun p => p.id == i)).length

/-! ### Realtime reconciliation (`setupRealtime` in `main.js`)

Each handler's effect on the module-level `pinsCache` array. -/

/-- Cache effect of the realtime insert handler:
`pinsCache.push(newPin)` — an unconditional append, with no check
whether the identifier is already present. -/
def handleInsertCache (newPin : Pin) (cache : List Pin) : List Pin :=
  cache ++ [newPin]

/-- Cache effect of the realtime update handler:
`const index = pinsCache.findIndex(p => p.id === updatedPin.id);
if (index !== -1) pinsCache[index] = updatedPin;` — overwrite the first
matching slot, leave the cache alone when no identifier matches. -/
def handleUpdateCache (updatedPin : Pin) (cache : List Pin) : List Pin :=
  match cache.findIdx? (fun p => p.id == updatedPin.id) with
  | some i => cache.set i updatedPin
  | none => cache

/-- Cache effect of the realtime delete handler:
`pinsCache = pinsCache.filter(p => p.id !== deletedPin.id)`. -/
def handleDeleteCache (deletedPin : Pin) (cache : List Pin) : List Pin :=
  cache.filter (fun p => p.id != deletedPin.id)

/-! ### Status styles (`PIN_STATUS` in `config.js`) -/

/-- One entry of the `PIN_STATUS` table. -/
structure StatusStyle where
  label : String
  color : String
  emoji : String
  deriving DecidableEq

/-- The style entry for the `active` category — the fallback used by the
renderer (`PIN_STATUS[pin.status] || PIN_STATUS.active` in `map.js`). -/
def activeStyle : StatusStyle :=
  { label := "Active", color := "#16a34a", emoji := "🟢" }

/-- The `PIN_STATUS` lookup table from `config.js`; `none` models an
absent key (`undefined` in JavaScript). -/
def PIN_STATUS (status : String) : Option StatusStyle :=
  if status = "critical" then some { label := "Critical", color := "#dc2626", emoji := "🔴" }
  else if status = "warning" then some { label := "Warning", color := "#f97316", emoji := "🟠" }
  else if status = "active" then some activeStyle
  else if status = "past" then some { label := "Past", color := "#2563eb", emoji := "🔵" }
  else if status = "weather" then some { label := "Weather", color := "#eab308", emoji := "🟡" }
  else none

/-! ### Markers and popups (`map.js`) -/

/-- `getMarkerClassName` in `map.js`: past pins do not get the pulse
class, every other status string does. -/
def getMarkerClassName (status : String) : String :=
  let baseClass := "pin-marker--" ++ status
  if status = "past" then baseClass
  else "pin-marker--pulse " ++ baseClass

/-- The options of the Leaflet circle marker built by `createPinMarker`. -/
structure PinMarker where
  lat : ℝ
  lng : ℝ
  radius : Nat
  fillColor : String
  color : String
  weight : Nat
  opacity : ℝ
  fillOpacity : ℝ
  className : String

/-- `createPinMarker` in `map.js`: look the status up in `PIN_STATUS`,
falling back to the `active` entry when the status is unrecognized, and
build the circle-marker options from it. -/
def createPinMarker (pin : Pin) : PinMarker :=
  let status := (PIN_STATUS pin.status).getD activeStyle
  let className := getMarkerClassName pin.status
  { lat := pin.lat, lng := pin.lng, radius := 10, fillColor := status.color,
    color := "#ffffff", weight := 2, opacity := 1, fillOpacity := 0.9,
    className := className }

/-- An action button of the popup's `pin-popup__actions` section. -/
inductive PopupButton where
  | donate
  | volunteer
  | help
  | custom (href : String) (text : String)
  deriving DecidableEq

/-- The custom-link button block of `createPopupContent`:
`if (pin.url) { ... textContent = pin.url_text || 'More Info' ... }`.
JavaScript truthiness makes an empty `url` string count as absent. -/
def customLinkButtons (pin : Pin) : List PopupButton :=
  if pin.url.isEmpty then []
  else [PopupButton.custom pin.url (if pin.url_text.isEmpty then "More Info" else pin.url_text)]

/-- Structure of the popup DOM built by `createPopupContent`: header
(status dot color and title), raw creation date, optional address and
summary blocks, and an optional actions section.  `actions = none`
models the absence of the `pin-popup__actions` element. -/
structure PopupContent where
  statusColor : String
  title : String
  dateRaw : String
  address : Option String
  summary : Option String
  actions : Option (List PopupButton)

/-- `createPopupContent` in `map.js`: the actions section exists exactly
when at least one of the three flags is `true` (`=== true` in the
source); inside it the donate, volunteer and help buttons appear in that
order for each enabled flag, followed by the custom-link button when the
pin's `url` is truthy.  Locale date formatting is external; the raw
`created_at` string is carried through. -/
def createPopupContent (pin : Pin) : PopupContent :=
  let status := (PIN_STATUS pin.status).getD activeStyle
  let showDonate := pin.show_donate
  let showVolunteer := pin.show_volunteer
  let showHelp := pin.show_help
  { statusColor := status.color
    title := pin.title
    dateRaw := pin.created_at
    address := if pin.address.isEmpty then none else some pin.address
    summary := if pin.summary.isEmpty then none else some pin.summary
    actions :=
      if showDonate || showVolunteer || showHelp then
        some ((if showDonate then [PopupButton.donate] else [])
          ++ (if showVolunteer then [PopupButton.volunteer] else [])
          ++ (if showHelp then [PopupButton.help] else [])
          ++ customLinkButtons pin)
      else none }

/-! ### Filters (`toggleFilter`, `resetFilters` in `main.js`;
`applyFilter`, `clearFilter` in `map.js`) -/

/-- A rendered marker of the markers layer together with whether its
element currently carries the `pin-marker--dimmed` class.  Every marker
the client renders stems from a pin (`marker.pinData = pin`). -/
structure Marker where
  pin : Pin
  dimmed : Bool

/-- `applyFilter` in `map.js`: for every rendered marker, remove the
dimmed class when its status is in the active set, add it otherwise. -/
def applyFilter (activeStatuses : List String) (markers : List Marker) : List Marker :=
  markers.map (fun m =>
    if activeStatuses.contains m.pin.status then { m with dimmed := false }
    else { m with dimmed := true })

/-- `clearFilter` in `map.js`: remove the dimmed class from every
rendered marker. -/
def clearFilter (markers : List Marker) : List Marker :=
  markers.map (fun m => { m with dimmed := false })

/-- JavaScript `Set` toggle as performed by `toggleFilter` in `main.js`:
`if (activeFilters.has(status)) activeFilters.delete(status) else
activeFilters.add(status)`, modelled on a duplicate-free list. -/
def toggleSet (s : List String) (x : String) : List String :=
  if s.contains x then s.filter (fun y => y != x) else s ++ [x]

/-- The module-level state of the public page that the filter operations
touch: the pin cache, the active filter set and the rendered markers. -/
structure PublicState where
  pinsCache : List Pin
  activeFilters : List String
  markers : List Marker

/-- `toggleFilter` in `main.js`: flip the category's membership in
`activeFilters`, then `applyFilter(activeFilters)` on the rendered
markers.  The legend UI update touches only legend CSS classes and is
out of scope; `updateCounts` is not called. -/
def toggleFilter (status : String) (st : PublicState) : PublicState :=
  let newActive := toggleSet st.activeFilters status
  { st with activeFilters := newActive, markers := applyFilter newActive st.markers }

/-- `resetFilters` in `main.js`: restore the full category set and call
`clearFilter()`, which removes the dimmed class from every marker. -/
def resetFilters (st : PublicState) : PublicState :=
  { st with activeFilters := allStatuses, markers := clearFilter st.markers }

/-! ### Search (`handleSearch`, `findPinsInRadius`, `haversineDistance`,
`toRad`, `drawSearchCircle` in `main.js`) -/

/-- The fixed search radius, `SEARCH_RADIUS_MILES = 50` in `main.js`. -/
def SEARCH_RADIUS_MILES : ℝ := 50

/-- `toRad` in `main.js`: `deg * (Math.PI / 180)`. -/
noncomputable def toRad (deg : ℝ) : ℝ :=
  deg * (Real.pi / 180)

/-- `Math.atan2(y, x)`: the argument of the point `(x, y)`. -/
noncomputable def atan2 (y x : ℝ) : ℝ :=
  Complex.arg ⟨x, y⟩

/-- `haversineDistance` in `main.js`: haversine great-circle distance
with Earth radius `R = 3959` miles, degrees converted to radians via
`toRad` before any trigonometry. -/
noncomputable def haversineDistance (lat1 lng1 lat2 lng2 : ℝ) : ℝ :=
  let R : ℝ := 3959
  let dLat := toRad (lat2 - lat1)
  let dLng := toRad (lng2 - lng1)
  let a := Real.sin (dLat / 2) * Real.sin (dLat / 2) +
    Real.cos (toRad lat1) * Real.cos (toRad lat2) *
    Real.sin (dLng / 2) * Real.sin (dLng / 2)
  let c := 2 * atan2 (Real.sqrt a) (Real.sqrt (1 - a))
  R * c

/-- `findPinsInRadius` in `main.js`: keep exactly the cached pins whose
haversine distance from the given coordinate is `<=` the radius. -/
noncomputable def findPinsInRadius (lat lng radiusMiles : ℝ) (pinsCache : List Pin) : List Pin :=
  pinsCache.filter (fun pin =>
    @decide (haversineDistance lat lng pin.lat pin.lng ≤ radiusMiles) (Classical.propDecidable _))

/-- JavaScript `String.prototype.trim` as used on the search input:
strip leading and trailing whitespace. -/
def jsTrim (s : String) : String :=
  ⟨((s.data.dropWhile Char.isWhitespace).reverse.dropWhile Char.isWhitespace).reverse⟩

/-- The regex test `/^\d{5}$/.test(query)`: exactly five decimal
digits. -/
def isFiveDigitZip (q : String) : Bool :=
  q.data.length == 5 && q.data.all Char.isDigit

/-- A geocoding result (`geocode` in `main.js`): resolved coordinate
plus a human-readable place label. -/
structure GeoCoords where
  lat : ℝ
  lng : ℝ
  display : String

/-- A message shown via `showSearchResult(message, type)`. -/
structure SearchResultMsg where
  message : String
  kind : String
  deriving DecidableEq

/-- The validation message for empty input. -/
def emptyInputMsg : SearchResultMsg :=
  { message := "Please enter a zip code", kind := "error" }

/-- The validation message for input that is not exactly five digits. -/
def invalidZipMsg : SearchResultMsg :=
  { message := "Please enter a valid 5-digit zip code", kind := "error" }

/-- The lookup-failure message for a zip code the geocoder cannot
resolve. -/
def notFoundMsg (q : String) : SearchResultMsg :=
  { message := "Zip code " ++ q ++ " not found", kind := "error" }

/-- `handleSearch` in `main.js`, as a function of the geocoding service
(an oracle from the query to an optional coordinate), the pin cache and
the raw input string.  The returned boolean records whether a geocode
network request was issued; the message is the final
`showSearchResult` payload.  Validation happens on the trimmed input
before the geocoder is consulted: empty input and non-five-digit input
short-circuit with validation messages. -/
noncomputable def handleSearch (geocode : String → Option GeoCoords)
    (pinsCache : List Pin) (input : String) : Bool × SearchResultMsg :=
  let query := jsTrim input
  if query.data.isEmpty then (false, emptyInputMsg)
  else if isFiveDigitZip query = false then (false, invalidZipMsg)
  else
    match geocode query with
    | none => (true, notFoundMsg query)
    | some coords =>
      let nearbyPins := findPinsInRadius coords.lat coords.lng SEARCH_RADIUS_MILES pinsCache
      if nearbyPins.length == 0 then
        (true, { message := "✓ Found " ++ query ++ " (" ++ coords.display
          ++ ") — No pins within 50 miles", kind := "neutral" })
      else
        (true, { message := "✓ Found " ++ query ++ " (" ++ coords.display
          ++ ") — " ++ toString nearbyPins.length ++ " pins within 50 miles", kind := "success" })

/-- A radius-visualization circle overlay on the map; the identifier
models Leaflet layer identity (`L.circle(...).addTo(map)`). -/
structure SearchOverlay where
  id : Nat
  lat : ℝ
  lng : ℝ

/-- The map state relevant to `drawSearchCircle`: the circle overlays
currently added to the map, the module-level `searchCircle` variable
(the identity of the last drawn circle, `none` before any search), and
a counter supplying fresh layer identities. -/
structure CircleState where
  overlays : List SearchOverlay
  searchCircle : Option Nat
  nextId : Nat

/-- The state before any search: `searchCircle = null`, no overlay. -/
def initialCircleState : CircleState :=
  { overlays := [], searchCircle := none, nextId := 0 }

/-- `drawSearchCircle` in `main.js`: `if (searchCircle)
map.removeLayer(searchCircle)`, then draw the new circle at the given
coordinate and remember it in `searchCircle`. -/
def drawSearchCircle (lat lng : ℝ) (st : CircleState) : CircleState :=
  let removed := match st.searchCircle with
    | some cid => st.overlays.filter (fun o => o.id != cid)
    | none => st.overlays
  { overlays := removed ++ [{ id := st.nextId, lat := lat, lng := lng }],
    searchCircle := some st.nextId,
    nextId := st.nextId + 1 }

/-- The circle-tracking invariant of `main.js`: the circle overlays on
the map are exactly the one referenced by the `searchCircle` variable
(so there is at most one, and none before the first search). -/
def circleInv (st : CircleState) : Prop :=
  st.overlays.map (fun o => o.id) = st.searchCircle.toList

/-! ### Storage (`getAllPins` in `storage.js`) -/

/-- `getAllPins` in `storage.js`, as a function of the outcome of the
underlying `supabaseRequest`: a thrown transport or service error is an
`Except.error`, a `null` response body is `Except.ok none`, and a parsed
array is `Except.ok (some pins)`.  The `try/catch` converts every error
to `[]`, and `pins || []` converts a `null` body to `[]`; the function
always returns an array and never rethrows. -/
def getAllPins (response : Except String (Option (List Pin))) : List Pin :=
  match response with
  | Except.error _ => []
  | Except.ok pins => pins.getD []

/-! ### Concrete fixtures for witnesses and counterexamples -/

/-- A concrete pin with a recognized status and no optional content. -/
def pinA : Pin :=
  { id := 1, title := "Flood relief staging", address := "", summary := "",
    status := "critical", lat := 30, lng := -91, url := "", url_text := "",
    show_donate := false, show_volunteer := false, show_help := false,
    created_at := "2025-10-01" }

/-- A second concrete pin with a distinct identifier. -/
def pinB : Pin :=
  { id := 2, title := "Supply drop", address := "", summary := "",
    status := "warning", lat := 29, lng := -90, url := "", url_text := "",
    show_donate := false, show_volunteer := false, show_help := false,
    created_at := "2025-10-02" }

/-- An updated record carrying `pinB`'s identifier. -/
def pinB2 : Pin :=
  { id := 2, title := "Supply drop (moved)", address := "", summary := "",
    status := "active", lat := 29, lng := -90, url := "", url_text := "",
    show_donate := false, show_volunteer := false, show_help := false,
    created_at := "2025-10-02" }

/-- A concrete pin whose status is not one of the five recognized
categories. -/
def pinFlood : Pin :=
  { id := 7, title := "Levee breach", address := "", summary := "",
    status := "flooded", lat := 30, lng := -90, url := "", url_text := "",
    show_donate := false, show_volunteer := false, show_help := false,
    created_at := "2025-10-03" }

/-- A concrete pin with only the donate flag set and a custom URL. -/
def pinDonate : Pin :=
  { id := 3, title := "Donation hub", address := "", summary := "",
    status := "active", lat := 30, lng := -92, url := "https://example.org/fund",
    url_text := "", show_donate := true, show_volunteer := false,
    show_help := false, created_at := "2025-10-04" }

/-- A concrete public-page state holding one marker with an
unrecognized status. -/
def stFlood : PublicState :=
  { pinsCache := [pinFlood], activeFilters := allStatuses,
    markers := [{ pin := pinFlood, dimmed := true }] }

/-- A concrete public-page state holding one critical marker. -/
def stCritical : PublicState :=
  { pinsCache := [pinA], activeFilters := allStatuses,
    markers := [{ pin := pinA, dimmed := false }] }

/-! ### Helper lemmas -/

/-- A successful `findIdx?` points at an element satisfying the
predicate. -/
theorem findIdx?_spec {α : Type} (p : α → Bool) (l : List α) :
    ∀ i : Nat, l.findIdx? p = some i → ∃ a, l[i]? = some a ∧ p a = true := by
  induction l with
  | nil => intro i h; simp [List.findIdx?] at h
  | cons x xs ih =>
    intro i h
    rw [List.findIdx?_cons] at h
    by_cases hp : p x = true
    · rw [if_pos hp] at h
      cases h
      exact ⟨x, by simp, hp⟩
    · rw [if_neg hp] at h
      simp at h
      obtain ⟨k, hk, rfl⟩ := h
      obtain ⟨a, ha, hpa⟩ := ih k hk
      exact ⟨a, by simpa using ha, hpa⟩

/-- The not-found message differs from both validation messages: its
text starts with a different character. -/
theorem notFoundMsg_ne_validation (q : String) :
    notFoundMsg q ≠ emptyInputMsg ∧ notFoundMsg q ≠ invalidZipMsg := by
  constructor <;> intro heq <;>
    have h := congrArg (fun m => m.message.data.head?) heq <;>
    simp only [notFoundMsg, emptyInputMsg, invalidZipMsg, String.data_append,
      List.head?_append] at h <;>
    rw [show ("Zip code " : String).data.head? = some 'Z' from by decide] at h <;>
    simp at h

/-- Drawing the search circle preserves the circle-tracking invariant
and leaves exactly one overlay on the map. -/
theorem drawSearchCircle_preserves (lat lng : ℝ) (st : CircleState) (h : circleInv st) :
    circleInv (drawSearchCircle lat lng st)
    ∧ (drawSearchCircle lat lng st).overlays.length = 1 := by
  unfold circleInv at h
  cases hs : st.searchCircle with
  | none =>
    rw [hs] at h
    have h0 : List.map (fun o => o.id) st.overlays = [] := by simpa using h
    have hnil : st.overlays = [] := List.map_eq_nil_iff.mp h0
    constructor
    · unfold circleInv drawSearchCircle
      rw [hs]
      simp [hnil]
    · unfold drawSearchCircle
      rw [hs]
      simp [hnil]
  | some cid =>
    rw [hs] at h
    obtain ⟨o, rest, hrest⟩ : ∃ o rest, st.overlays = o :: rest := by
      cases hov : st.overlays with
      | nil => rw [hov] at h; simp at h
      | cons o rest => exact ⟨o, rest, rfl⟩
    rw [hrest] at h
    simp only [List.map_cons, Option.toList_some, List.cons.injEq] at h
    obtain ⟨hid, hmaprest⟩ := h
    have hrestnil : rest = [] := List.map_eq_nil_iff.mp hmaprest
    have hfilter : st.overlays.filter (fun o => o.id != cid) = [] := by
      rw [hrest, hrestnil]
      simp [hid]
    constructor
    · unfold circleInv drawSearchCircle
      rw [hs]
      simp [hfilter]
    · unfold drawSearchCircle
      rw [hs]
      simp [hfilter]

/-! ### Claims -/

/-- C1: a pin is returned by `findPinsInRadius` at the fixed 50-mile
search radius exactly when it is in the cache and its haversine
great-circle distance (Earth radius 3959 miles, degrees converted to
radians inside `haversineDistance`) from the resolved coordinate is at
most 50 miles; the comparison is the inclusive `≤`, so distance exactly
50 is in range and any distance strictly above 50 is not. -/
theorem findPinsInRadius_inclusive_haversine (lat lng : ℝ) (cache : List Pin) (pin : Pin) :
    pin ∈ findPinsInRadius lat lng SEARCH_RADIUS_MILES cache ↔
      pin ∈ cache ∧ haversineDistance lat lng pin.lat pin.lng ≤ 50 := by
  simp [findPinsInRadius, SEARCH_RADIUS_MILES]

/-- C2 counterexample: inserting a pin whose identifier is already
cached leaves two records with that identifier, not exactly one — the
insert handler pushes unconditionally. -/
theorem insert_duplicate_id_counterexample :
    countWithId (handleInsertCache pinA [pinA]) pinA.id ≠ 1 := by
  decide

/-- C2 amended: the realtime insert handler appends the carried record
unconditionally (`pinsCache.push(newPin)`, with no presence check), so
the number of cached records with the carried identifier always grows
by one — in particular an insert for an already-present identifier
leaves a duplicate. -/
theorem insert_appends_unconditionally (newPin : Pin) (cache : List Pin) :
    handleInsertCache newPin cache = cache ++ [newPin]
    ∧ countWithId (handleInsertCache newPin cache) newPin.id
        = countWithId cache newPin.id + 1 := by
  refine ⟨rfl, ?_⟩
  unfold countWithId handleInsertCache
  rw [List.filter_append, List.length_append]
  simp

/-- C5: the realtime update handler is a no-op when the carried
identifier is absent from the cache (cache, hence its size, unchanged);
when it is present, the first matching slot is overwritten by the
carried record and every other slot is unchanged. -/
theorem update_replaces_matching (up : Pin) (cache : List Pin) :
    ((∀ p ∈ cache, p.id ≠ up.id) → handleUpdateCache up cache = cache)
    ∧ (∀ i : Nat, cache.findIdx? (fun p => p.id == up.id) = some i →
        (handleUpdateCache up cache).length = cache.length
        ∧ (handleUpdateCache up cache)[i]? = some up
        ∧ (∃ old, cache[i]? = some old ∧ old.id = up.id)
        ∧ ∀ j : Nat, j ≠ i → (handleUpdateCache up cache)[j]? = cache[j]?) := by
  constructor
  · intro habs
    have hnone : cache.findIdx? (fun p => p.id == up.id) = none :=
      List.findIdx?_eq_none_iff.mpr (fun x hx => beq_eq_false_iff_ne.mpr (habs x hx))
    unfold handleUpdateCache
    rw [hnone]
  · intro i hfind
    obtain ⟨a, ha, hpa⟩ := findIdx?_spec (fun p => p.id == up.id) cache i hfind
    have hupd : handleUpdateCache up cache = cache.set i up := by
      unfold handleUpdateCache
      rw [hfind]
    refine ⟨by rw [hupd]; exact List.length_set cache i up, ?_, ⟨a, ha, by simpa using hpa⟩, ?_⟩
    · rw [hupd, List.getElem?_set_self', ha]
      rfl
    · intro j hj
      rw [hupd]
      exact List.getElem?_set_ne (Ne.symm hj)

/-- C5 witness: updating with an identifier absent from a concrete
one-pin cache is a no-op, and updating the second slot of a concrete
two-pin cache replaces exactly that slot. -/
theorem update_replaces_matching_witness :
    handleUpdateCache pinB2 [pinA] = [pinA]
    ∧ (handleUpdateCache pinB2 [pinA, pinB])[1]? = some pinB2 := by
  constructor
  · exact (update_replaces_matching pinB2 [pinA]).1 (by
      intro p hp
      have hp2 : p = pinA := by simpa using hp
      subst hp2
      decide)
  · exact ((update_replaces_matching pinB2 [pinA, pinB]).2 1 (by decide)).2.1

/-- C7 counterexample: with the identifier already cached beforehand,
insert-then-delete for that identifier does not leave the counts
unchanged — the delete also removes the pre-existing record, so the
critical tally drops from one to zero. -/
theorem insert_delete_counts_counterexample :
    countsByStatus (handleDeleteCache pinA (handleInsertCache pinA [pinA]))
      ≠ countsByStatus [pinA] := by
  decide

/-- C7 amended: applying the insert handler and then the delete handler
for the same identifier always leaves the cache without any record of
that identifier; the counts-by-status return to their prior value
provided the identifier was not already cached before the pair (an
already-present identifier is also swept away by the delete, changing
the counts). -/
theorem insert_then_delete_no_trace (pin : Pin) (cache : List Pin) :
    (∀ p ∈ handleDeleteCache pin (handleInsertCache pin cache), p.id ≠ pin.id)
    ∧ ((∀ p ∈ cache, p.id ≠ pin.id) →
        handleDeleteCache pin (handleInsertCache pin cache) = cache
        ∧ countsByStatus (handleDeleteCache pin (handleInsertCache pin cache))
            = countsByStatus cache) := by
  constructor
  · intro p hp
    have hmem := (List.mem_filter.mp hp).2
    simpa [bne_iff_ne] using hmem
  · intro habs
    have hself : handleDeleteCache pin (handleInsertCache pin cache) = cache := by
      unfold handleDeleteCache handleInsertCache
      rw [List.filter_append]
      have h1 : cache.filter (fun p => p.id != pin.id) = cache :=
        List.filter_eq_self.mpr (fun a ha => by simpa [bne_iff_ne] using habs a ha)
      have h2 : [pin].filter (fun p => p.id != pin.id) = ([] : List Pin) := by simp
      rw [h1, h2, List.append_nil]
    exact ⟨hself, by rw [hself]⟩

/-- C7 witness: for a concrete cache not containing the inserted
identifier, insert-then-delete restores the cache and the counts. -/
theorem insert_then_delete_no_trace_witness :
    handleDeleteCache pinB (handleInsertCache pinB [pinA]) = [pinA]
    ∧ countsByStatus (handleDeleteCache pinB (handleInsertCache pinB [pinA]))
        = countsByStatus [pinA] :=
  (insert_then_delete_no_trace pinB [pinA]).2 (by
    intro p hp
    have hp2 : p = pinA := by simpa using hp
    subst hp2
    decide)

/-- C10: `getAllPins` is total over every outcome of the underlying
store request — a thrown transport or service error yields the empty
array, a `null` body yields the empty array, and a parsed array is
passed through; no outcome propagates an exception (the return type is
a plain list). -/
theorem getAllPins_total_on_failure (r : Except String (Option (List Pin))) :
    (∀ e, r = Except.error e → getAllPins r = [])
    ∧ (r = Except.ok none → getAllPins r = [])
    ∧ (∀ pins, r = Except.ok (some pins) → getAllPins r = pins) := by
  refine ⟨?_, ?_, ?_⟩
  · intro e he
    rw [he]
    rfl
  · intro he
    rw [he]
    rfl
  · intro pins he
    rw [he]
    rfl

/-- C10 witness: a transport error, a `null` body and a one-pin array
all evaluate as the claim states. -/
theorem getAllPins_total_on_failure_witness :
    getAllPins (Except.error "Supabase request failed: 500") = []
    ∧ getAllPins (Except.ok none) = []
    ∧ getAllPins (Except.ok (some [pinA])) = [pinA] :=
  ⟨(getAllPins_total_on_failure (Except.error "Supabase request failed: 500")).1 _ rfl,
   (getAllPins_total_on_failure (Except.ok none)).2.1 rfl,
   (getAllPins_total_on_failure (Except.ok (some [pinA]))).2.2 [pinA] rfl⟩

/-- C3: `handleSearch` issues a geocode network request exactly when the
trimmed input is five decimal digits; empty and malformed input is
rejected with a validation message before any network call, and the
validation messages are distinct from the lookup not-found message. -/
theorem search_validates_before_network (geocode : String → Option GeoCoords)
    (cache : List Pin) (input : String) :
    ((handleSearch geocode cache input).1 = true ↔ isFiveDigitZip (jsTrim input) = true)
    ∧ (isFiveDigitZip (jsTrim input) = false →
        (handleSearch geocode cache input).1 = false
        ∧ ((handleSearch geocode cache input).2 = emptyInputMsg
            ∨ (handleSearch geocode cache input).2 = invalidZipMsg))
    ∧ (isFiveDigitZip (jsTrim input) = true → geocode (jsTrim input) = none →
        handleSearch geocode cache input = (true, notFoundMsg (jsTrim input))
        ∧ notFoundMsg (jsTrim input) ≠ emptyInputMsg
        ∧ notFoundMsg (jsTrim input) ≠ invalidZipMsg) := by
  unfold handleSearch
  by_cases h0 : (jsTrim input).data.isEmpty = true
  · have hq : (jsTrim input).data = [] := by simpa using h0
    have hfive : isFiveDigitZip (jsTrim input) = false := by
      unfold isFiveDigitZip
      rw [hq]
      rfl
    rw [if_pos h0]
    exact ⟨by simp [hfive], fun _ => ⟨rfl, Or.inl rfl⟩,
      fun h5 _ => absurd h5 (by simp [hfive])⟩
  · rw [if_neg h0]
    by_cases h5 : isFiveDigitZip (jsTrim input) = false
    · rw [if_pos h5]
      exact ⟨by simp [h5], fun _ => ⟨rfl, Or.inr rfl⟩,
        fun h5t _ => absurd h5t (by simp [h5])⟩
    · rw [if_neg h5]
      have h5t : isFiveDigitZip (jsTrim input) = true := by
        cases hb : isFiveDigitZip (jsTrim input)
        · exact absurd hb h5
        · rfl
      cases hg : geocode (jsTrim input) with
      | none =>
        refine ⟨by simp [h5t], fun hf => absurd h5t (by simp [hf]), fun _ _ => ?_⟩
        exact ⟨rfl, notFoundMsg_ne_validation (jsTrim input)⟩
      | some coords =>
        refine ⟨?_, fun hf => absurd h5t (by simp [hf]), fun _ hgn => ?_⟩
        · constructor
          · intro _
            exact h5t
          · intro _
            dsimp only
            split <;> rfl
        · cases hgn

/-- C3 witness: the four-digit input issues no network request and ends
in a validation message; a five-digit input the geocoder cannot resolve
ends in the distinct not-found message. -/
theorem search_validates_before_network_witness :
    ((handleSearch (fun _ => none) [] "1234").1 = false
      ∧ ((handleSearch (fun _ => none) [] "1234").2 = emptyInputMsg
          ∨ (handleSearch (fun _ => none) [] "1234").2 = invalidZipMsg))
    ∧ (handleSearch (fun _ => none) [] "12345" = (true, notFoundMsg (jsTrim "12345"))
        ∧ notFoundMsg (jsTrim "12345") ≠ emptyInputMsg
        ∧ notFoundMsg (jsTrim "12345") ≠ invalidZipMsg) :=
  ⟨(search_validates_before_network (fun _ => none) [] "1234").2.1 (by decide),
   (search_validates_before_network (fun _ => none) [] "12345").2.2 (by decide) rfl⟩

/-- C4 counterexample: after a reset, a rendered marker whose pin status
is not one of the five recognized categories is undimmed (the reset
calls `clearFilter`, which undims everything) although its status is
not in the active-category set, so the claimed dimming biconditional
fails for the reset mutation. -/
theorem reset_dimming_counterexample :
    ¬ (∀ m ∈ (resetFilters stFlood).markers,
        (m.dimmed = true
          ↔ (resetFilters stFlood).activeFilters.contains m.pin.status = false)) := by
  intro h
  have hm := h { pin := pinFlood, dimmed := false }
    (by simp [resetFilters, stFlood, clearFilter])
  have hfalse : false = true := hm.mpr (by decide)
  cases hfalse

/-- C4 amended: neither filter mutation touches the pin cache or the
counts-by-status; after a toggle every rendered marker is dimmed
exactly when its status is not in the active set; after a reset every
marker is undimmed, which agrees with the dimming biconditional for
every marker whose status is one of the five recognized categories
(the biconditional can fail after a reset only for markers carrying an
unrecognized status). -/
theorem filter_mutations_frame (s : String) (st : PublicState) :
    (toggleFilter s st).pinsCache = st.pinsCache
    ∧ countsByStatus (toggleFilter s st).pinsCache = countsByStatus st.pinsCache
    ∧ (resetFilters st).pinsCache = st.pinsCache
    ∧ countsByStatus (resetFilters st).pinsCache = countsByStatus st.pinsCache
    ∧ (∀ m ∈ (toggleFilter s st).markers,
        (m.dimmed = true
          ↔ (toggleFilter s st).activeFilters.contains m.pin.status = false))
    ∧ (∀ m ∈ (resetFilters st).markers, m.dimmed = false)
    ∧ (∀ m ∈ (resetFilters st).markers, m.pin.status ∈ allStatuses →
        (m.dimmed = true
          ↔ (resetFilters st).activeFilters.contains m.pin.status = false)) := by
  refine ⟨rfl, rfl, rfl, rfl, ?_, ?_, ?_⟩
  · intro m hm
    simp only [toggleFilter, applyFilter, List.mem_map] at hm
    obtain ⟨m0, _, hEq⟩ := hm
    by_cases hc : (toggleSet st.activeFilters s).contains m0.pin.status = true
    · rw [if_pos hc] at hEq
      subst hEq
      show (false = true) ↔ ((toggleSet st.activeFilters s).contains m0.pin.status = false)
      constructor
      · intro hft
        exact absurd hft (by simp)
      · intro hcf
        rw [hc] at hcf
        exact absurd hcf (by simp)
    · rw [if_neg hc] at hEq
      subst hEq
      have hcf : (toggleSet st.activeFilters s).contains m0.pin.status = false := by
        simpa using hc
      show (true = true) ↔ ((toggleSet st.activeFilters s).contains m0.pin.status = false)
      exact ⟨fun _ => hcf, fun _ => rfl⟩
  · intro m hm
    simp only [resetFilters, clearFilter, List.mem_map] at hm
    obtain ⟨m0, _, hEq⟩ := hm
    subst hEq
    rfl
  · intro m hm hrec
    simp only [resetFilters, clearFilter, List.mem_map] at hm
    obtain ⟨m0, _, hEq⟩ := hm
    subst hEq
    have hc2 : allStatuses.contains m0.pin.status = true := List.elem_iff.mpr hrec
    show (false = true) ↔ (allStatuses.contains m0.pin.status = false)
    constructor
    · intro hft
      exact absurd hft (by simp)
    · intro hcf
      rw [hc2] at hcf
      exact absurd hcf (by simp)

/-- C4 witness: toggling `critical` off on a concrete state leaves the
cache unchanged, and the single rendered critical marker ends dimmed
exactly as the biconditional prescribes. -/
theorem filter_mutations_frame_witness :
    (toggleFilter "critical" stCritical).pinsCache = stCritical.pinsCache
    ∧ (({ pin := pinA, dimmed := true } : Marker).dimmed = true
        ↔ (toggleFilter "critical" stCritical).activeFilters.contains
            ({ pin := pinA, dimmed := true } : Marker).pin.status = false) := by
  refine ⟨(filter_mutations_frame "critical" stCritical).1, ?_⟩
  have hmem : ({ pin := pinA, dimmed := true } : Marker)
      ∈ (toggleFilter "critical" stCritical).markers := by
    have hmk : (toggleFilter "critical" stCritical).markers
        = [{ pin := pinA, dimmed := true }] := rfl
    rw [hmk]
    exact List.mem_singleton.mpr rfl
  exact (filter_mutations_frame "critical" stCritical).2.2.2.2.1
    { pin := pinA, dimmed := true } hmem

/-- C6: starting from any state satisfying the circle-tracking
invariant (which the initial `searchCircle = null`, empty-map state
does), drawing a search circle preserves the invariant and leaves
exactly one radius overlay on the map; a second consecutive draw also
leaves exactly one, because the prior overlay is removed before the new
one is added. -/
theorem search_circle_single_overlay (lat1 lng1 lat2 lng2 : ℝ) (st : CircleState)
    (h : circleInv st) :
    circleInv (drawSearchCircle lat1 lng1 st)
    ∧ (drawSearchCircle lat1 lng1 st).overlays.length = 1
    ∧ (drawSearchCircle lat2 lng2 (drawSearchCircle lat1 lng1 st)).overlays.length = 1 := by
  have h1 := drawSearchCircle_preserves lat1 lng1 st h
  exact ⟨h1.1, h1.2, (drawSearchCircle_preserves lat2 lng2 _ h1.1).2⟩

/-- C6 witness: two consecutive searches from the initial state leave a
single overlay each time. -/
theorem search_circle_single_overlay_witness :
    circleInv (drawSearchCircle 0 0 initialCircleState)
    ∧ (drawSearchCircle 0 0 initialCircleState).overlays.length = 1
    ∧ (drawSearchCircle 1 1 (drawSearchCircle 0 0 initialCircleState)).overlays.length = 1 :=
  search_circle_single_overlay 0 0 1 1 initialCircleState rfl

/-- C8: a pin with all three flags false renders a popup with no
actions section; with exactly one flag true the actions section holds
exactly that flag's button, followed by exactly one custom-link button
when the pin's URL is non-empty (JavaScript truthiness treats the empty
string as absent) and none otherwise. -/
theorem popup_action_buttons (pin : Pin) :
    (pin.show_donate = false → pin.show_volunteer = false → pin.show_help = false →
      (createPopupContent pin).actions = none)
    ∧ (pin.show_donate = true → pin.show_volunteer = false → pin.show_help = false →
      (createPopupContent pin).actions = some ([PopupButton.donate] ++ customLinkButtons pin))
    ∧ (pin.show_volunteer = true → pin.show_donate = false → pin.show_help = false →
      (createPopupContent pin).actions = some ([PopupButton.volunteer] ++ customLinkButtons pin))
    ∧ (pin.show_help = true → pin.show_donate = false → pin.show_volunteer = false →
      (createPopupContent pin).actions = some ([PopupButton.help] ++ customLinkButtons pin))
    ∧ ((customLinkButtons pin).length = if pin.url.isEmpty then 0 else 1)
    ∧ (pin.url.isEmpty = false →
        customLinkButtons pin
          = [PopupButton.custom pin.url
              (if pin.url_text.isEmpty then "More Info" else pin.url_text)]) := by
  refine ⟨?_, ?_, ?_, ?_, ?_, ?_⟩
  · intro h1 h2 h3
    simp [createPopupContent, h1, h2, h3]
  · intro h1 h2 h3
    simp [createPopupContent, h1, h2, h3]
  · intro h1 h2 h3
    simp [createPopupContent, h1, h2, h3]
  · intro h1 h2 h3
    simp [createPopupContent, h1, h2, h3]
  · by_cases hu : pin.url.isEmpty <;> simp [customLinkButtons, hu]
  · intro hu
    simp [customLinkButtons, hu]

/-- C8 witness: the all-flags-false pin renders no actions section; the
donate-only pin with a custom URL renders the donate button plus the
custom-link button. -/
theorem popup_action_buttons_witness :
    (createPopupContent pinA).actions = none
    ∧ (createPopupContent pinDonate).actions
        = some ([PopupButton.donate] ++ customLinkButtons pinDonate) :=
  ⟨(popup_action_buttons pinA).1 rfl rfl rfl,
   (popup_action_buttons pinDonate).2.1 rfl rfl rfl⟩

/-- C9: for a pin whose status is not one of the five recognized
categories, the `PIN_STATUS` lookup misses and both the marker and the
popup are styled with the `active` entry — the renderer's default —
rather than failing or producing unstyled output. -/
theorem unrecognized_status_uses_default_style (pin : Pin) (h : pin.status ∉ allStatuses) :
    PIN_STATUS pin.status = none
    ∧ (createPinMarker pin).fillColor = activeStyle.color
    ∧ (createPopupContent pin).statusColor = activeStyle.color
    ∧ PIN_STATUS "active" = some activeStyle := by
  have hn : PIN_STATUS pin.status = none := by
    simp only [allStatuses, List.mem_cons, List.mem_singleton, not_or] at h
    obtain ⟨h1, h2, h3, h4, h5⟩ := h
    simp [PIN_STATUS, h1, h2, h3, h4, h5]
  refine ⟨hn, ?_, ?_, rfl⟩
  · simp [createPinMarker, hn]
  · simp [createPopupContent, hn]

/-- C9 witness: the concrete pin with status `flooded` falls back to
the `active` styling in both the marker and the popup. -/
theorem unrecognized_status_uses_default_style_witness :
    PIN_STATUS pinFlood.status = none
    ∧ (createPinMarker pinFlood).fillColor = activeStyle.color
    ∧ (createPopupContent pinFlood).statusColor = activeStyle.color
    ∧ PIN_STATUS "active" = some activeStyle :=
  unrecognized_status_uses_default_style pinFlood (by decide)

end UCNMap
